import Mathlib

/-!
Verification of the profile geometry engine of the qAeroChart plugin
(src/qAeroChart/core/profile_chart_geometry.py), embedded shallowly:
Python floats become rationals, Python dict fields become optional
values that either parse to a number or fail to parse, and a Python
call that raises is modelled as an Except value.
-/

namespace QAeroChart

/-- A 2-D cartesian point, embedding QgsPointXY. -/
@[ext]
structure QgsPointXY where
  x : ℚ
  y : ℚ
deriving DecidableEq, Repr

/-- A Python value stored in a profile-point field: either something that
float(...) converts to a number (ints, floats, numeric strings), or a
value on which float(...) raises ValueError or TypeError. -/
inductive PyVal where
  | num (q : ℚ)
  | nonNum
deriving DecidableEq, Repr

/-- A profile-point record, embedding the Python dict entries that
create_profile_line reads; a field of value none embeds a dict that
lacks that key. -/
structure PointData where
  distance_nm : Option PyVal
  elevation_ft : Option PyVal
deriving DecidableEq, Repr

/-- Embeds the expression float(point.get(key, 0)): a missing key defaults
to 0, a numeric value parses, and a non-numeric value raises. -/
def pyFloatField : Option PyVal → Except Unit ℚ
  | none => .ok 0
  | some (.num q) => .ok q
  | some .nonNum => .error ()

/-- True when float(point.get(key, 0)) does not raise. -/
def parsesField : Option PyVal → Bool
  | some .nonNum => false
  | _ => true

/-- The number produced by float(point.get(key, 0)) when it does not raise. -/
def fieldValue : Option PyVal → ℚ
  | none => 0
  | some (.num q) => q
  | some .nonNum => 0

/-- Embeds Python int(q): truncation of a float toward zero. -/
def pyInt (q : ℚ) : ℤ := if 0 ≤ q then ⌊q⌋ else ⌈q⌉

/-- Class constant NM_TO_METERS = 1852.0. -/
def NM_TO_METERS : ℚ := 1852.0

/-- Class constant FT_TO_METERS = 0.3048. -/
def FT_TO_METERS : ℚ := 0.3048

/-- Class constant METERS_TO_FT = 3.28084. -/
def METERS_TO_FT : ℚ := 3.28084

/-- The ProfileChartGeometry instance state set by the constructor and
never mutated afterwards: every method of the embedding below is a pure
function of this fixed state, matching the source class, whose methods
only read these attributes. -/
structure ProfileChartGeometry where
  origin : QgsPointXY
  horizontal_scale : ℚ
  vertical_exaggeration : ℚ
deriving DecidableEq, Repr

/-- Embeds the Python expression float(vertical_exaggeration or 10.0) of
the constructor: the argument None (and an omitted argument uses 10.0,
which is truthy) and the falsy number 0 both fall through to 10.0. -/
def veArg : Option ℚ → ℚ
  | none => 10
  | some v => if v = 0 then 10 else v

/-- Embeds ProfileChartGeometry.__init__: stores the origin,
horizontal_scale = 1.0 and vertical_exaggeration =
max(1.0, float(vertical_exaggeration or 10.0)). -/
def ProfileChartGeometry.init (origin_point : QgsPointXY) (vertical_exaggeration : Option ℚ) :
    ProfileChartGeometry :=
  { origin := origin_point
    horizontal_scale := 1
    vertical_exaggeration := max 1 (veArg vertical_exaggeration) }

/-- Embeds nm_to_meters: nautical_miles * NM_TO_METERS. -/
def ProfileChartGeometry.nm_to_meters (g : ProfileChartGeometry) (nautical_miles : ℚ) : ℚ :=
  nautical_miles * NM_TO_METERS

/-- Embeds calculate_profile_point: distance converted NM to meters and
scaled by horizontal_scale on x, elevation converted ft to meters and
scaled by vertical_exaggeration on y, both offset from the origin. -/
def ProfileChartGeometry.calculate_profile_point (g : ProfileChartGeometry)
    (distance_nm elevation_ft : ℚ) : QgsPointXY :=
  let distance_m := g.nm_to_meters distance_nm
  let elevation_m := elevation_ft * FT_TO_METERS
  let scaled_distance_m := distance_m * g.horizontal_scale
  let scaled_elevation_m := elevation_m * g.vertical_exaggeration
  ⟨g.origin.x + scaled_distance_m, g.origin.y + scaled_elevation_m⟩

/-- Embeds create_runway_line: two points on the baseline, from
origin.x - length * horizontal_scale to origin.x; the second argument
(the deprecated TCH parameter, default 0.0) is ignored. -/
def ProfileChartGeometry.create_runway_line (g : ProfileChartGeometry)
    (length_m tch_m_ignored : ℚ) : List QgsPointXY :=
  let scaled_length := length_m * g.horizontal_scale
  let y := g.origin.y
  [⟨g.origin.x - scaled_length, y⟩, ⟨g.origin.x, y⟩]

/-- Embeds the key extraction performed by
sorted(profile_points, key=lambda p: float(p.get(&distance_nm&, 0))):
CPython evaluates the key of every element before sorting, so the first
element whose distance field does not parse makes the whole call raise.
On success each point is paired with its parsed distance. -/
def keyedPoints : List PointData → Except Unit (List (ℚ × PointData))
  | [] => .ok []
  | p :: rest =>
    match pyFloatField p.distance_nm with
    | .error e => .error e
    | .ok d =>
      match keyedPoints rest with
      | .error e => .error e
      | .ok ks => .ok ((d, p) :: ks)

/-- The Bool comparison used to sort keyed points ascending by parsed
distance. -/
def leDist (a b : ℚ × PointData) : Bool := decide (a.1 ≤ b.1)

/-- Embeds the sorted(...) call: a stable ascending sort by the parsed
distance key (any stable sort computes the same list as the CPython
stable sort). -/
def sortByDistance (l : List (ℚ × PointData)) : List (ℚ × PointData) :=
  l.mergeSort leDist

/-- Embeds one iteration of the loop body of create_profile_line: parse
the elevation field inside try/except; on success project the point, on
ValueError or TypeError skip it. The distance was already parsed by the
sort key, so its re-parse in the loop cannot fail. -/
def ProfileChartGeometry.projectPoint (g : ProfileChartGeometry) (dp : ℚ × PointData) :
    Option QgsPointXY :=
  match pyFloatField dp.2.elevation_ft with
  | .ok e => some (g.calculate_profile_point dp.1 e)
  | .error _ => none

/-- Embeds create_profile_line: sort by parsed distance (raising if any
distance field fails to parse), then project each point, skipping points
whose elevation field fails to parse. -/
def ProfileChartGeometry.create_profile_line (g : ProfileChartGeometry)
    (profile_points : List PointData) : Except Unit (List QgsPointXY) :=
  match keyedPoints profile_points with
  | .error e => .error e
  | .ok keyed => .ok ((sortByDistance keyed).filterMap g.projectPoint)

/-- A distance marker, embedding the dict with keys distance, label and
geometry built by create_distance_markers. -/
structure Marker where
  distance : ℕ
  label : String
  geometry : List QgsPointXY
deriving DecidableEq, Repr

/-- Embeds create_distance_markers: one marker per i in
range(int(max_distance_nm) + 1), each a two-point segment at
x = origin.x + i NM, from the baseline downward by
marker_height_m * vertical_exaggeration. -/
def ProfileChartGeometry.create_distance_markers (g : ProfileChartGeometry)
    (max_distance_nm marker_height_m : ℚ) : List Marker :=
  let scaled_marker_height := marker_height_m * g.vertical_exaggeration
  (List.range (pyInt max_distance_nm + 1).toNat).map fun (i : ℕ) =>
    let distance_m := g.nm_to_meters (i : ℚ)
    let scaled_distance := distance_m * g.horizontal_scale
    let x_position := g.origin.x + scaled_distance
    { distance := i
      label := toString i
      geometry := [⟨x_position, g.origin.y⟩, ⟨x_position, g.origin.y - scaled_marker_height⟩] }

/-- Embeds create_oca_box: the closed five-point clockwise rectangle from
(start_distance_nm, 0) to (end_distance_nm, height_ft). -/
def ProfileChartGeometry.create_oca_box (g : ProfileChartGeometry)
    (start_distance_nm end_distance_nm height_ft : ℚ) : List QgsPointXY :=
  let start_m := g.nm_to_meters start_distance_nm
  let end_m := g.nm_to_meters end_distance_nm
  let height_m := height_ft * FT_TO_METERS
  let scaled_start := start_m * g.horizontal_scale
  let scaled_end := end_m * g.horizontal_scale
  let scaled_height := height_m * g.vertical_exaggeration
  let bottom_left : QgsPointXY := ⟨g.origin.x + scaled_start, g.origin.y⟩
  let bottom_right : QgsPointXY := ⟨g.origin.x + scaled_end, g.origin.y⟩
  let top_right : QgsPointXY := ⟨g.origin.x + scaled_end, g.origin.y + scaled_height⟩
  let top_left : QgsPointXY := ⟨g.origin.x + scaled_start, g.origin.y + scaled_height⟩
  [bottom_left, bottom_right, top_right, top_left, bottom_left]

/-- Embeds calculate_gradient: both points converted to meters, gradient
in percent, with an explicit zero result when the horizontal distance in
meters is zero. -/
def ProfileChartGeometry.calculate_gradient (g : ProfileChartGeometry)
    (point1_nm_ft point2_nm_ft : ℚ × ℚ) : ℚ :=
  let dist1_m := g.nm_to_meters point1_nm_ft.1
  let dist2_m := g.nm_to_meters point2_nm_ft.1
  let elev1_m := point1_nm_ft.2 * FT_TO_METERS
  let elev2_m := point2_nm_ft.2 * FT_TO_METERS
  let horizontal_distance := dist2_m - dist1_m
  let vertical_distance := elev2_m - elev1_m
  if horizontal_distance = 0 then 0
  else vertical_distance / horizontal_distance * 100

/-- Embeds extend_line_with_gradient: the elevation change in meters is
gradient_percent / 100 times the extension in meters, converted to feet
by multiplying with METERS_TO_FT, then the end point is projected. -/
def ProfileChartGeometry.extend_line_with_gradient (g : ProfileChartGeometry)
    (start_point_nm_ft : ℚ × ℚ) (gradient_percent extend_distance_nm : ℚ) : QgsPointXY :=
  let extend_distance_m := g.nm_to_meters extend_distance_nm
  let elevation_change_m := gradient_percent / 100 * extend_distance_m
  let elevation_change_ft := elevation_change_m * METERS_TO_FT
  let end_dist_nm := start_point_nm_ft.1 + extend_distance_nm
  let end_elev_ft := start_point_nm_ft.2 + elevation_change_ft
  g.calculate_profile_point end_dist_nm end_elev_ft

/-! Helper lemmas shared by the claim theorems. -/

/-- The constructor clamp guarantees a vertical exaggeration of at least one. -/
lemma init_ve_ge_one (origin : QgsPointXY) (ve : Option ℚ) :
    1 ≤ (ProfileChartGeometry.init origin ve).vertical_exaggeration :=
  le_max_left 1 (veArg ve)

/-- The constructor always stores a horizontal scale of one. -/
lemma init_horizontal_scale (origin : QgsPointXY) (ve : Option ℚ) :
    (ProfileChartGeometry.init origin ve).horizontal_scale = 1 := rfl

/-- The constructor stores the supplied origin unchanged. -/
lemma init_origin (origin : QgsPointXY) (ve : Option ℚ) :
    (ProfileChartGeometry.init origin ve).origin = origin := rfl

/-- On a parsing field, float(point.get(key, 0)) returns its value. -/
lemma pyFloatField_of_parses {o : Option PyVal} (h : parsesField o = true) :
    pyFloatField o = .ok (fieldValue o) := by
  cases o with
  | none => rfl
  | some v =>
    cases v with
    | num q => rfl
    | nonNum => simp [parsesField] at h

/-- On a non-parsing field, float(point.get(key, 0)) raises. -/
lemma pyFloatField_of_not_parses {o : Option PyVal} (h : parsesField o = false) :
    pyFloatField o = .error () := by
  cases o with
  | none => simp [parsesField] at h
  | some v =>
    cases v with
    | num q => simp [parsesField] at h
    | nonNum => rfl

/-- When every distance field parses, the sort-key extraction succeeds and
pairs every point with its parsed distance, in input order. -/
lemma keyedPoints_ok : ∀ pts : List PointData,
    (∀ p ∈ pts, parsesField p.distance_nm = true) →
    keyedPoints pts = .ok (pts.map fun p => (fieldValue p.distance_nm, p))
  | [], _ => rfl
  | p :: rest, h => by
    have hp := h p (List.mem_cons_self p rest)
    have hrest := keyedPoints_ok rest fun q hq => h q (List.mem_cons_of_mem p hq)
    simp [keyedPoints, pyFloatField_of_parses hp, hrest]

/-- When some distance field fails to parse, the sort-key extraction
raises, exactly as the sorted(...) call of the source does. -/
lemma keyedPoints_error : ∀ pts : List PointData,
    (∃ p ∈ pts, parsesField p.distance_nm = false) →
    keyedPoints pts = .error ()
  | [], h => absurd h (by simp)
  | p :: rest, h => by
    obtain ⟨q, hq, hqf⟩ := h
    rcases List.mem_cons.mp hq with hq1 | hq2
    · subst hq1
      simp [keyedPoints, pyFloatField_of_not_parses hqf]
    · cases hpd : pyFloatField p.distance_nm with
      | error e => cases e; simp [keyedPoints, hpd]
      | ok d =>
        have hrest := keyedPoints_error rest ⟨q, hq2, hqf⟩
        simp [keyedPoints, hpd, hrest]

/-- The length of a filterMap is the count of elements on which the
function succeeds. -/
lemma length_filterMap_countP (f : α → Option β) : ∀ l : List α,
    (l.filterMap f).length = l.countP fun a => (f a).isSome
  | [] => rfl
  | a :: l => by
    cases hfa : f a <;>
      simp [List.filterMap_cons, hfa, List.countP_cons, length_filterMap_countP f l]

/-- The loop body of create_profile_line keeps a point exactly when its
elevation field parses. -/
lemma projectPoint_isSome (g : ProfileChartGeometry) (dp : ℚ × PointData) :
    (g.projectPoint dp).isSome = parsesField dp.2.elevation_ft := by
  cases ho : dp.2.elevation_ft with
  | none => simp [ProfileChartGeometry.projectPoint, pyFloatField, parsesField, ho]
  | some v =>
    cases v <;> simp [ProfileChartGeometry.projectPoint, pyFloatField, parsesField, ho]

/-- The x coordinate of every point kept by the loop body, for an
instance built by the constructor. -/
lemma projectPoint_init_x {origin : QgsPointXY} {ve : Option ℚ} {dp : ℚ × PointData}
    {pt : QgsPointXY} (h : (ProfileChartGeometry.init origin ve).projectPoint dp = some pt) :
    pt.x = origin.x + dp.1 * 1852 := by
  unfold ProfileChartGeometry.projectPoint at h
  cases hpf : pyFloatField dp.2.elevation_ft with
  | error e => rw [hpf] at h; cases h
  | ok e =>
    rw [hpf] at h
    have hpt : pt = (ProfileChartGeometry.init origin ve).calculate_profile_point dp.1 e := by
      exact (Option.some_injective _ h).symm
    rw [hpt]
    simp only [ProfileChartGeometry.calculate_profile_point, ProfileChartGeometry.nm_to_meters,
      ProfileChartGeometry.init, NM_TO_METERS]
    norm_num

/-- The comparison used by the sort is transitive. -/
lemma leDist_trans : ∀ a b c : ℚ × PointData,
    leDist a b = true → leDist b c = true → leDist a c = true := by
  intro a b c hab hbc
  simp only [leDist, decide_eq_true_eq] at hab hbc ⊢
  exact le_trans hab hbc

/-- The comparison used by the sort is total. -/
lemma leDist_total : ∀ a b : ℚ × PointData, (leDist a b || leDist b a) = true := by
  intro a b
  simp only [leDist, Bool.or_eq_true, decide_eq_true_eq]
  exact le_total a.1 b.1

/-- The sort permutes its input. -/
lemma sortByDistance_perm (l : List (ℚ × PointData)) : List.Perm (sortByDistance l) l :=
  List.mergeSort_perm l leDist

/-- The sort output is pairwise ascending in the parsed distance key. -/
lemma sortByDistance_pairwise (l : List (ℚ × PointData)) :
    (sortByDistance l).Pairwise fun a b => a.1 ≤ b.1 := by
  have h := @List.sorted_mergeSort _ leDist leDist_trans leDist_total l
  exact h.imp fun hab => by simpa [leDist, decide_eq_true_eq] using hab

/-- Stability of the sort: the elements carrying any fixed distance key
appear in the output exactly as they appear in the input. -/
lemma sortByDistance_filter_key (l : List (ℚ × PointData)) (v : ℚ) :
    (sortByDistance l).filter (fun a => decide (a.1 = v))
      = l.filter (fun a => decide (a.1 = v)) := by
  have hmemv : ∀ a ∈ l.filter (fun a => decide (a.1 = v)), a.1 = v := by
    intro a ha
    simpa using List.of_mem_filter ha
  have hc : (l.filter (fun a => decide (a.1 = v))).Pairwise
      fun a b => leDist a b = true := by
    refine List.pairwise_of_forall_mem_list ?_
    intro a ha b hb
    simp [leDist, hmemv a ha, hmemv b hb]
  have h1 : List.Sublist (l.filter (fun a => decide (a.1 = v))) (sortByDistance l) :=
    List.sublist_mergeSort leDist_trans leDist_total hc (List.filter_sublist l)
  have h2 : List.Perm ((sortByDistance l).filter (fun a => decide (a.1 = v)))
      (l.filter (fun a => decide (a.1 = v))) :=
    (List.mergeSort_perm l leDist).filter _
  have hidem : (l.filter (fun a => decide (a.1 = v))).filter (fun a => decide (a.1 = v))
      = l.filter (fun a => decide (a.1 = v)) := by
    apply List.filter_eq_self.mpr
    intro a ha
    simp [hmemv a ha]
  have h3 : List.Sublist (l.filter (fun a => decide (a.1 = v)))
      ((sortByDistance l).filter (fun a => decide (a.1 = v))) := by
    have h4 := h1.filter (fun a => decide (a.1 = v))
    rwa [hidem] at h4
  exact (h3.eq_of_length h2.length_eq.symm).symm

/-- Concrete input for the distance-parse counterexample: four points with
parseable fields plus one point whose distance field is non-numeric. -/
def ptsBadDistance : List PointData :=
  [⟨some (.num 0), some (.num 100)⟩, ⟨some (.num 1), some (.num 200)⟩,
   ⟨some .nonNum, some (.num 300)⟩, ⟨some (.num 3), some (.num 400)⟩,
   ⟨some (.num 4), some (.num 500)⟩]

/-- Concrete input with four parseable points plus one point whose
elevation field is non-numeric. -/
def ptsBadElevation : List PointData :=
  [⟨some (.num 0), some (.num 100)⟩, ⟨some (.num 1), some (.num 200)⟩,
   ⟨some (.num 2), some .nonNum⟩, ⟨some (.num 3), some (.num 400)⟩,
   ⟨some (.num 4), some (.num 500)⟩]

/-- Concrete input whose distances arrive out of order. -/
def ptsUnsorted : List PointData :=
  [⟨some (.num 6), some (.num 100)⟩, ⟨some (.num 0), some (.num 50)⟩,
   ⟨some (.num 3), some (.num 70)⟩]

/-- Concrete input containing a record that lacks both keys. -/
def ptsMissingKeys : List PointData :=
  [⟨some (.num 2), some (.num 300)⟩, ⟨none, none⟩]

/-! Claim theorems. -/

/-- C1: for every origin, every VE and every pair of inputs (d, e),
calculate_profile_point returns exactly
(origin.x + d * 1852, origin.y + e * 0.3048 * VE); the distance is never
scaled by VE, the elevation is always multiplied by VE. -/
theorem calculate_profile_point_projects (origin : QgsPointXY) (ve : Option ℚ) (d e : ℚ) :
    ((ProfileChartGeometry.init origin ve).calculate_profile_point d e).x
      = origin.x + d * 1852 ∧
    ((ProfileChartGeometry.init origin ve).calculate_profile_point d e).y
      = origin.y + e * 0.3048
          * (ProfileChartGeometry.init origin ve).vertical_exaggeration := by
  constructor <;>
    simp only [ProfileChartGeometry.calculate_profile_point, ProfileChartGeometry.nm_to_meters,
      ProfileChartGeometry.init, NM_TO_METERS, FT_TO_METERS] <;>
    norm_num

/-- C4: calculate_gradient returns
((e2 - e1) * 0.3048) / ((d2 - d1) * 1852) * 100 when d2 is not d1, and
exactly 0 when d2 = d1 (the zero-divide guard). -/
theorem calculate_gradient_spec (origin : QgsPointXY) (ve : Option ℚ) (d1 e1 d2 e2 : ℚ) :
    (d2 ≠ d1 →
      (ProfileChartGeometry.init origin ve).calculate_gradient (d1, e1) (d2, e2)
        = (e2 - e1) * 0.3048 / ((d2 - d1) * 1852) * 100) ∧
    (d2 = d1 →
      (ProfileChartGeometry.init origin ve).calculate_gradient (d1, e1) (d2, e2) = 0) := by
  constructor
  · intro hne
    have hden : d2 * NM_TO_METERS - d1 * NM_TO_METERS ≠ 0 := by
      simp only [NM_TO_METERS]
      intro h
      apply hne
      nlinarith
    simp only [ProfileChartGeometry.calculate_gradient, ProfileChartGeometry.nm_to_meters,
      if_neg hden]
    have h1 : e2 * FT_TO_METERS - e1 * FT_TO_METERS = (e2 - e1) * FT_TO_METERS := by ring
    have h2 : d2 * NM_TO_METERS - d1 * NM_TO_METERS = (d2 - d1) * NM_TO_METERS := by ring
    rw [h1, h2]
    simp only [FT_TO_METERS, NM_TO_METERS]
    norm_num
  · intro heq
    subst heq
    simp [ProfileChartGeometry.calculate_gradient, ProfileChartGeometry.nm_to_meters]

/-- C4 witness: at ((0, 0), (1, 320)) the gradient is
320 * 0.3048 / 1852 * 100, and at ((3, 7), (3, 9)) equal distances give 0. -/
theorem calculate_gradient_spec_witness :
    (ProfileChartGeometry.init ⟨0, 0⟩ (some 10)).calculate_gradient (0, 0) (1, 320)
        = (320 - 0) * 0.3048 / ((1 - 0) * 1852) * 100 ∧
    (ProfileChartGeometry.init ⟨0, 0⟩ (some 10)).calculate_gradient (3, 7) (3, 9) = 0 :=
  ⟨(calculate_gradient_spec ⟨0, 0⟩ (some 10) 0 0 1 320).1 (by norm_num),
   (calculate_gradient_spec ⟨0, 0⟩ (some 10) 3 7 3 9).2 rfl⟩

/-- C5: create_oca_box returns exactly five points, first and last
identical, in order bottom-left, bottom-right, top-right, top-left,
close, forming the axis-aligned rectangle from
calculate_profile_point(from_nm, 0) to calculate_profile_point(to_nm,
height_ft), of width (to_nm - from_nm) * 1852 and height
height_ft * 0.3048 * VE. -/
theorem create_oca_box_spec (origin : QgsPointXY) (ve : Option ℚ) (from_nm to_nm height_ft : ℚ) :
    ∃ bl br tr tl : QgsPointXY,
      (ProfileChartGeometry.init origin ve).create_oca_box from_nm to_nm height_ft
          = [bl, br, tr, tl, bl] ∧
      ((ProfileChartGeometry.init origin ve).create_oca_box from_nm to_nm height_ft).length
          = 5 ∧
      bl = (ProfileChartGeometry.init origin ve).calculate_profile_point from_nm 0 ∧
      br = (ProfileChartGeometry.init origin ve).calculate_profile_point to_nm 0 ∧
      tr = (ProfileChartGeometry.init origin ve).calculate_profile_point to_nm height_ft ∧
      tl = (ProfileChartGeometry.init origin ve).calculate_profile_point from_nm height_ft ∧
      br.x - bl.x = (to_nm - from_nm) * 1852 ∧
      tr.y - br.y = height_ft * 0.3048
          * (ProfileChartGeometry.init origin ve).vertical_exaggeration := by
  refine ⟨_, _, _, _, rfl, rfl, ?_, ?_, ?_, ?_, ?_, ?_⟩ <;>
    first
      | (ext <;>
          simp only [ProfileChartGeometry.create_oca_box,
            ProfileChartGeometry.calculate_profile_point, ProfileChartGeometry.nm_to_meters,
            ProfileChartGeometry.init, NM_TO_METERS, FT_TO_METERS] <;>
          norm_num)
      | (simp only [ProfileChartGeometry.create_oca_box, ProfileChartGeometry.nm_to_meters,
          ProfileChartGeometry.init, NM_TO_METERS, FT_TO_METERS] <;>
          norm_num <;> ring)

/-- C7: create_runway_line returns the two baseline points
[origin - (length, 0), origin], for every runway length and every value
of the ignored TCH argument. -/
theorem create_runway_line_spec (origin : QgsPointXY) (ve : Option ℚ) (length_m tch : ℚ) :
    (ProfileChartGeometry.init origin ve).create_runway_line length_m tch
      = [⟨origin.x - length_m, origin.y⟩, ⟨origin.x, origin.y⟩] := by
  simp [ProfileChartGeometry.create_runway_line, ProfileChartGeometry.init]

/-- C8 counterexample: with origin (0, 0), VE = 10, start point (0, 0),
gradient 100 percent and extension 1 NM, extend_line_with_gradient does
not return the point the claim predicts, because the code converts
meters to feet by multiplying with 3.28084 rather than dividing by
0.3048. -/
theorem extend_line_with_gradient_claim_false :
    (ProfileChartGeometry.init ⟨0, 0⟩ (some 10)).extend_line_with_gradient (0, 0) 100 1
      ≠ (ProfileChartGeometry.init ⟨0, 0⟩ (some 10)).calculate_profile_point (0 + 1)
          (0 + 100 / 100 * (1 * 1852) / 0.3048) := by
  intro h
  have hy := congrArg QgsPointXY.y h
  simp only [ProfileChartGeometry.extend_line_with_gradient,
    ProfileChartGeometry.calculate_profile_point, ProfileChartGeometry.nm_to_meters,
    ProfileChartGeometry.init, NM_TO_METERS, FT_TO_METERS, METERS_TO_FT, veArg] at hy
  norm_num [max_def] at hy

/-- C8 amended: extend_line_with_gradient returns
calculate_profile_point(d + ext, e + (g / 100) * (ext * 1852) * 3.28084):
the elevation change in meters is converted back to feet by multiplying
with the METERS_TO_FT constant 3.28084, not by dividing by 0.3048. -/
theorem extend_line_with_gradient_spec (origin : QgsPointXY) (ve : Option ℚ)
    (d e gp ext : ℚ) :
    (ProfileChartGeometry.init origin ve).extend_line_with_gradient (d, e) gp ext
      = (ProfileChartGeometry.init origin ve).calculate_profile_point (d + ext)
          (e + gp / 100 * (ext * 1852) * 3.28084) := by
  simp only [ProfileChartGeometry.extend_line_with_gradient, ProfileChartGeometry.nm_to_meters,
    NM_TO_METERS, METERS_TO_FT]
  norm_num

/-- C9: the stored vertical exaggeration is at least 1 for every
constructor argument; the argument None and the falsy argument 0 are
replaced by the default 10, any other argument v is clamped to
max(1, v); in particular 0.5 yields 1 and 0 yields 10, not 1. The
structure holds no mutable state, so every operation of the instance
reads this same clamped value. -/
theorem init_vertical_exaggeration_spec (origin : QgsPointXY) (ve : Option ℚ) :
    1 ≤ (ProfileChartGeometry.init origin ve).vertical_exaggeration ∧
    (ProfileChartGeometry.init origin none).vertical_exaggeration = 10 ∧
    (ProfileChartGeometry.init origin (some 0)).vertical_exaggeration = 10 ∧
    (∀ v : ℚ, v ≠ 0 →
      (ProfileChartGeometry.init origin (some v)).vertical_exaggeration = max 1 v) ∧
    (ProfileChartGeometry.init origin (some (1 / 2))).vertical_exaggeration = 1 ∧
    (ProfileChartGeometry.init origin (some 0)).vertical_exaggeration ≠ 1 := by
  refine ⟨le_max_left 1 (veArg ve), by norm_num [ProfileChartGeometry.init, veArg],
    by norm_num [ProfileChartGeometry.init, veArg], ?_,
    by norm_num [ProfileChartGeometry.init, veArg],
    by norm_num [ProfileChartGeometry.init, veArg]⟩
  intro v hv
  simp [ProfileChartGeometry.init, veArg, hv]

/-- C9 witness: the argument 2 is not falsy, so the stored vertical
exaggeration is max 1 2. -/
theorem init_vertical_exaggeration_spec_witness :
    (ProfileChartGeometry.init ⟨0, 0⟩ (some 2)).vertical_exaggeration = max 1 2 :=
  (init_vertical_exaggeration_spec ⟨0, 0⟩ (some 2)).2.2.2.1 2 (by norm_num)

/-- C2 counterexample: with four parseable points and one point whose
distance field is non-numeric, create_profile_line raises (the sort-key
parse runs before the per-point try/except) instead of skipping the bad
point and returning the other four, so the claim fails for the
distance_nm case. -/
theorem create_profile_line_bad_distance_raises :
    ptsBadDistance.length = 5 ∧
    ptsBadDistance.countP (fun p => parsesField p.distance_nm) = 4 ∧
    (ProfileChartGeometry.init ⟨0, 0⟩ (some 10)).create_profile_line ptsBadDistance
      = .error () :=
  ⟨rfl, by decide, rfl⟩

/-- C2 amended: create_profile_line skips points whose elevation field
fails to parse and returns the remaining projected points without
raising, so four parseable points plus one non-numeric elevation yield
four output points; but when any distance field fails to parse, the
whole call raises, because the sort key is evaluated outside the
per-point try/except. -/
theorem create_profile_line_error_semantics (origin : QgsPointXY) (ve : Option ℚ)
    (pts : List PointData) :
    ((∀ p ∈ pts, parsesField p.distance_nm = true) →
      ∃ out, (ProfileChartGeometry.init origin ve).create_profile_line pts = .ok out ∧
        out.length = pts.countP fun p => parsesField p.elevation_ft) ∧
    ((∃ p ∈ pts, parsesField p.distance_nm = false) →
      (ProfileChartGeometry.init origin ve).create_profile_line pts = .error ()) := by
  constructor
  · intro hall
    have hok := keyedPoints_ok pts hall
    refine ⟨(sortByDistance (pts.map fun p => (fieldValue p.distance_nm, p))).filterMap
        (ProfileChartGeometry.init origin ve).projectPoint, ?_, ?_⟩
    · simp [ProfileChartGeometry.create_profile_line, hok]
    · rw [length_filterMap_countP]
      rw [List.Perm.countP_eq _ (sortByDistance_perm _)]
      rw [List.countP_map]
      refine List.countP_congr ?_
      intro p _
      simp [Function.comp, projectPoint_isSome]
  · intro h
    simp [ProfileChartGeometry.create_profile_line, keyedPoints_error pts h]

/-- C2 witness: the amended behaviour at concrete inputs: four good
points plus a bad elevation yield four projected points; four good
points plus a bad distance make the call raise. -/
theorem create_profile_line_error_semantics_witness :
    (∀ p ∈ ptsBadElevation, parsesField p.distance_nm = true) ∧
    (∃ out, (ProfileChartGeometry.init ⟨0, 0⟩ (some 10)).create_profile_line ptsBadElevation
        = .ok out ∧
      out.length = ptsBadElevation.countP fun p => parsesField p.elevation_ft) ∧
    (ptsBadElevation.countP fun p => parsesField p.elevation_ft) = 4 ∧
    (∃ p ∈ ptsBadDistance, parsesField p.distance_nm = false) ∧
    (ProfileChartGeometry.init ⟨0, 0⟩ (some 10)).create_profile_line ptsBadDistance
      = .error () :=
  ⟨by decide,
   (create_profile_line_error_semantics ⟨0, 0⟩ (some 10) ptsBadElevation).1 (by decide),
   by decide,
   by decide,
   (create_profile_line_error_semantics ⟨0, 0⟩ (some 10) ptsBadDistance).2 (by decide)⟩

/-- C3: on inputs whose fields all parse, create_profile_line succeeds;
its output is monotonically non-decreasing in the x coordinate
(equivalently, in distance) regardless of input order; the stable sort
keeps points with equal distance keys in input order; empty input yields
empty output. -/
theorem create_profile_line_sorted_stable (origin : QgsPointXY) (ve : Option ℚ)
    (pts : List PointData)
    (hall : ∀ p ∈ pts,
      parsesField p.distance_nm = true ∧ parsesField p.elevation_ft = true) :
    ∃ out, (ProfileChartGeometry.init origin ve).create_profile_line pts = .ok out ∧
      out.Pairwise (fun a b => a.x ≤ b.x) ∧
      (pts = [] → out = []) ∧
      ∀ v : ℚ,
        (sortByDistance (pts.map fun p => (fieldValue p.distance_nm, p))).filter
            (fun a => decide (a.1 = v))
          = (pts.map fun p => (fieldValue p.distance_nm, p)).filter
              fun a => decide (a.1 = v) := by
  have hok := keyedPoints_ok pts fun p hp => (hall p hp).1
  refine ⟨(sortByDistance (pts.map fun p => (fieldValue p.distance_nm, p))).filterMap
      (ProfileChartGeometry.init origin ve).projectPoint, ?_, ?_, ?_,
      fun v => sortByDistance_filter_key _ v⟩
  · simp [ProfileChartGeometry.create_profile_line, hok]
  · rw [List.pairwise_filterMap]
    have hsorted := sortByDistance_pairwise (pts.map fun p => (fieldValue p.distance_nm, p))
    refine hsorted.imp ?_
    intro a b hab pa hpa pb hpb
    have hxa := projectPoint_init_x (Option.mem_def.mp hpa)
    have hxb := projectPoint_init_x (Option.mem_def.mp hpb)
    rw [hxa, hxb]
    nlinarith
  · intro hpts
    subst hpts
    simp [sortByDistance]

/-- C3 witness: distances arriving as 6, 0, 3 are emitted sorted. -/
theorem create_profile_line_sorted_stable_witness :
    (∀ p ∈ ptsUnsorted,
      parsesField p.distance_nm = true ∧ parsesField p.elevation_ft = true) ∧
    (∃ out, (ProfileChartGeometry.init ⟨1000, 2000⟩ (some 10)).create_profile_line ptsUnsorted
        = .ok out ∧
      out.Pairwise (fun a b => a.x ≤ b.x) ∧
      (ptsUnsorted = [] → out = []) ∧
      ∀ v : ℚ,
        (sortByDistance (ptsUnsorted.map fun p => (fieldValue p.distance_nm, p))).filter
            (fun a => decide (a.1 = v))
          = (ptsUnsorted.map fun p => (fieldValue p.distance_nm, p)).filter
              fun a => decide (a.1 = v)) :=
  ⟨by decide,
   create_profile_line_sorted_stable ⟨1000, 2000⟩ (some 10) ptsUnsorted (by decide)⟩

/-- C6: for a non-negative maximum distance and a positive tick height,
create_distance_markers returns floor(max) + 1 markers, the marker of
index i labelled with the decimal string of i and placed at x =
origin.x + i * 1852; each geometry is a two-point vertical segment whose
bottom is on the baseline and whose top lies below the baseline at
distance tick_height * VE. -/
theorem create_distance_markers_spec (origin : QgsPointXY) (ve : Option ℚ)
    (max_nm hgt : ℚ) (hmax : 0 ≤ max_nm) (hh : 0 < hgt) :
    ((ProfileChartGeometry.init origin ve).create_distance_markers max_nm hgt).length
        = ⌊max_nm⌋.toNat + 1 ∧
    (ProfileChartGeometry.init origin ve).create_distance_markers max_nm hgt
        = (List.range (⌊max_nm⌋.toNat + 1)).map (fun i =>
            { distance := i
              label := toString i
              geometry := [⟨origin.x + (i : ℚ) * 1852, origin.y⟩,
                ⟨origin.x + (i : ℚ) * 1852,
                  origin.y
                    - hgt * (ProfileChartGeometry.init origin ve).vertical_exaggeration⟩] }) ∧
    ∀ m ∈ (ProfileChartGeometry.init origin ve).create_distance_markers max_nm hgt,
      ∃ b t : QgsPointXY, m.geometry = [b, t] ∧ b.x = t.x ∧ b.y = origin.y ∧
        b.y - t.y = hgt * (ProfileChartGeometry.init origin ve).vertical_exaggeration ∧
        t.y < origin.y := by
  have hfloor : (0 : ℤ) ≤ ⌊max_nm⌋ := Int.floor_nonneg.mpr hmax
  have hn : (pyInt max_nm + 1).toNat = ⌊max_nm⌋.toNat + 1 := by
    rw [pyInt, if_pos hmax]
    omega
  have hmap : (ProfileChartGeometry.init origin ve).create_distance_markers max_nm hgt
      = (List.range (⌊max_nm⌋.toNat + 1)).map (fun i =>
          { distance := i
            label := toString i
            geometry := [⟨origin.x + (i : ℚ) * 1852, origin.y⟩,
              ⟨origin.x + (i : ℚ) * 1852,
                origin.y
                  - hgt * (ProfileChartGeometry.init origin ve).vertical_exaggeration⟩] }) := by
    simp only [ProfileChartGeometry.create_distance_markers, hn]
    refine List.map_congr_left ?_
    intro i _
    simp only [ProfileChartGeometry.nm_to_meters, NM_TO_METERS, Marker.mk.injEq,
      QgsPointXY.mk.injEq, init_horizontal_scale, init_origin]
    norm_num
  refine ⟨?_, hmap, ?_⟩
  · rw [hmap]
    simp
  · intro m hm
    rw [hmap] at hm
    obtain ⟨i, hi, rfl⟩ := List.mem_map.mp hm
    refine ⟨_, _, rfl, rfl, rfl, ?_, ?_⟩
    · show origin.y - (origin.y
          - hgt * (ProfileChartGeometry.init origin ve).vertical_exaggeration)
        = hgt * (ProfileChartGeometry.init origin ve).vertical_exaggeration
      ring
    · show origin.y - hgt * (ProfileChartGeometry.init origin ve).vertical_exaggeration
        < origin.y
      nlinarith [init_ve_ge_one origin ve]

/-- C6 witness: a maximum of 5 NM and a tick height of 200 give six
markers with the stated geometry. -/
theorem create_distance_markers_spec_witness :
    ((ProfileChartGeometry.init ⟨0, 0⟩ (some 10)).create_distance_markers 5 200).length
        = ⌊(5 : ℚ)⌋.toNat + 1 ∧
    (ProfileChartGeometry.init ⟨0, 0⟩ (some 10)).create_distance_markers 5 200
        = (List.range (⌊(5 : ℚ)⌋.toNat + 1)).map (fun i =>
            { distance := i
              label := toString i
              geometry := [⟨(0 : ℚ) + (i : ℚ) * 1852, (0 : ℚ)⟩,
                ⟨(0 : ℚ) + (i : ℚ) * 1852,
                  (0 : ℚ)
                    - 200 * (ProfileChartGeometry.init ⟨0, 0⟩
                        (some 10)).vertical_exaggeration⟩] }) ∧
    ∀ m ∈ (ProfileChartGeometry.init ⟨0, 0⟩ (some 10)).create_distance_markers 5 200,
      ∃ b t : QgsPointXY, m.geometry = [b, t] ∧ b.x = t.x ∧ b.y = (0 : ℚ) ∧
        b.y - t.y = 200 * (ProfileChartGeometry.init ⟨0, 0⟩
            (some 10)).vertical_exaggeration ∧
        t.y < (0 : ℚ) :=
  create_distance_markers_spec ⟨0, 0⟩ (some 10) 5 200 (by norm_num) (by norm_num)

/-- C10: a record lacking the distance key or the elevation key is
neither fatal nor skipped: the missing field defaults to 0 and the point
is projected with that value and included in the output (provided, as
the claim presumes, that the fields that are present parse). -/
theorem create_profile_line_missing_key_defaults (origin : QgsPointXY) (ve : Option ℚ)
    (pts : List PointData)
    (hd : ∀ q ∈ pts, parsesField q.distance_nm = true)
    (p : PointData) (hp : p ∈ pts)
    (_hmiss : p.distance_nm = none ∨ p.elevation_ft = none)
    (hep : parsesField p.elevation_ft = true) :
    ∃ out, (ProfileChartGeometry.init origin ve).create_profile_line pts = .ok out ∧
      (ProfileChartGeometry.init origin ve).calculate_profile_point
          (fieldValue p.distance_nm) (fieldValue p.elevation_ft) ∈ out ∧
      (p.distance_nm = none → fieldValue p.distance_nm = 0) ∧
      (p.elevation_ft = none → fieldValue p.elevation_ft = 0) := by
  have hok := keyedPoints_ok pts hd
  refine ⟨(sortByDistance (pts.map fun q => (fieldValue q.distance_nm, q))).filterMap
      (ProfileChartGeometry.init origin ve).projectPoint, ?_, ?_,
      fun h => by rw [h]; rfl, fun h => by rw [h]; rfl⟩
  · simp [ProfileChartGeometry.create_profile_line, hok]
  · refine List.mem_filterMap.mpr ⟨(fieldValue p.distance_nm, p), ?_, ?_⟩
    · have hmem : (fieldValue p.distance_nm, p)
          ∈ pts.map fun q => (fieldValue q.distance_nm, q) :=
        List.mem_map_of_mem _ hp
      simpa [sortByDistance] using hmem
    · simp [ProfileChartGeometry.projectPoint, pyFloatField_of_parses hep]

/-- C10 witness: a record with both keys missing is projected at
(0, 0) and included alongside the one complete record. -/
theorem create_profile_line_missing_key_defaults_witness :
    (∀ q ∈ ptsMissingKeys, parsesField q.distance_nm = true) ∧
    (⟨none, none⟩ : PointData) ∈ ptsMissingKeys ∧
    (∃ out, (ProfileChartGeometry.init ⟨0, 0⟩ (some 10)).create_profile_line ptsMissingKeys
        = .ok out ∧
      (ProfileChartGeometry.init ⟨0, 0⟩ (some 10)).calculate_profile_point
          (fieldValue (PointData.mk none none).distance_nm)
          (fieldValue (PointData.mk none none).elevation_ft) ∈ out ∧
      ((PointData.mk none none).distance_nm = none
        → fieldValue (PointData.mk none none).distance_nm = 0) ∧
      ((PointData.mk none none).elevation_ft = none
        → fieldValue (PointData.mk none none).elevation_ft = 0)) :=
  ⟨by decide, by decide,
   create_profile_line_missing_key_defaults ⟨0, 0⟩ (some 10) ptsMissingKeys (by decide)
     ⟨none, none⟩ (by decide) (Or.inl rfl) rfl⟩

end QAeroChart
